import Mathlib

/-!
# Event Explorer — verification of the spec against the source

Shallow embedding of the three route-level pages of the `eventExplorer`
repository: the event list view, the event detail view and the profile view.

Modelling conventions:
* Browser `localStorage` is a partial map from string keys to stored
  registration lists (`RegistrationStore`); `localStorage.getItem` returning
  `null` is `none`, and the JSON encode/decode round-trip is elided.
* JavaScript `Date` values are modelled by a civil date `Date` (year, month,
  day); `baseDate.setDate(baseDate.getDate() + k)` is `Date.addDays`, which
  rolls over month and year ends exactly as the JS setter does.  The current
  moment is passed explicitly (`today : Date` for date derivation, `now : Int`
  for the millisecond timestamp behind `new Date().toISOString()` /
  `new Date(s).getTime()`).
* Numeric JSON fields (`price`, `rating`, …) are modelled as integers; no
  claim computes with them, they are only copied and compared.
* React `useState` setters become explicit state arguments and return values.
-/

namespace EventExplorer

/-- The `Event` interface of the list view (`EventsContent`). -/
structure Event where
  id : Nat
  title : String
  description : String
  price : Int
  thumbnail : String
  category : String
  rating : Int
  stock : Nat
  brand : String
deriving DecidableEq, Repr

/-- The `EventDetail` interface of the detail view (`EventDetailContent`). -/
structure EventDetail where
  id : Nat
  title : String
  description : String
  price : Int
  thumbnail : String
  images : List String
  category : String
  rating : Int
  stock : Nat
  brand : String
  discountPercentage : Int
  tags : List String
deriving DecidableEq, Repr

/-- The `RegisteredEvent` interface shared by the detail and profile views.
`registeredAt` is the time value of the stored ISO timestamp string
(`new Date().toISOString()` written, `new Date(s).getTime()` read); ISO-8601
strings compare the same way as their time values, so the time value is the
faithful representation for ordering. -/
structure RegisteredEvent where
  id : Nat
  title : String
  price : Int
  thumbnail : String
  category : String
  registeredAt : Int
  eventDate : String
  location : String
deriving DecidableEq, Repr

/-- The user object exposed by the auth guard (`useAuth`); its identifier is
interpolated into the storage key, so it is kept as a string. -/
structure User where
  id : String
  name : String
  email : String
deriving DecidableEq, Repr

/-! ## Civil dates: the fragment of JS `Date` the pages use -/

/-- Gregorian leap-year rule, as implemented by JS `Date`. -/
def isLeapYear (y : Nat) : Bool :=
  y % 4 == 0 && (y % 100 != 0 || y % 400 == 0)

/-- Number of days in month `m` (1–12) of year `y`. -/
def daysInMonth (y m : Nat) : Nat :=
  if m == 2 then (if isLeapYear y then 29 else 28)
  else if m == 4 || m == 6 || m == 9 || m == 11 then 30
  else 31

/-- A civil calendar date, the observable content of a JS `Date` at day
granularity (month is 1-based here; JS `getMonth` is 0-based but the pages
only ever format, never read, the month). -/
structure Date where
  year : Nat
  month : Nat
  day : Nat
deriving DecidableEq, Repr

/-- The date one day later, rolling over month and year ends the way
`setDate` normalisation does. -/
def Date.nextDay (d : Date) : Date :=
  if d.day < daysInMonth d.year d.month then ⟨d.year, d.month, d.day + 1⟩
  else if d.month < 12 then ⟨d.year, d.month + 1, 1⟩
  else ⟨d.year + 1, 1, 1⟩

/-- `baseDate.setDate(baseDate.getDate() + k)`: advance a date by `k` days. -/
def Date.addDays (d : Date) : Nat → Date
  | 0 => d
  | k + 1 => (d.nextDay).addDays k

/-- Chronological (lexicographic) order on civil dates. -/
def Date.lt (a b : Date) : Prop :=
  a.year < b.year ∨
    (a.year = b.year ∧
      (a.month < b.month ∨ (a.month = b.month ∧ a.day < b.day)))

instance : DecidablePred fun p : Date × Date => p.1.lt p.2 := fun _ => by
  unfold Date.lt; infer_instance

instance (a b : Date) : Decidable (a.lt b) := by
  unfold Date.lt; infer_instance

/-- A date a real JS `Date` can denote: month and day in range. -/
def Date.Valid (d : Date) : Prop :=
  1 ≤ d.month ∧ d.month ≤ 12 ∧ 1 ≤ d.day ∧ d.day ≤ daysInMonth d.year d.month

instance (d : Date) : Decidable d.Valid := by
  unfold Date.Valid; infer_instance

/-- English month names, as produced by `toLocaleDateString("en-US", {month: "long"})`. -/
def monthLongName (m : Nat) : String :=
  match m with
  | 1 => "January" | 2 => "February" | 3 => "March" | 4 => "April"
  | 5 => "May" | 6 => "June" | 7 => "July" | 8 => "August"
  | 9 => "September" | 10 => "October" | 11 => "November" | 12 => "December"
  | _ => ""

/-- Abbreviated month names, `{month: "short"}`. -/
def monthShortName (m : Nat) : String :=
  match m with
  | 1 => "Jan" | 2 => "Feb" | 3 => "Mar" | 4 => "Apr"
  | 5 => "May" | 6 => "Jun" | 7 => "Jul" | 8 => "Aug"
  | 9 => "Sep" | 10 => "Oct" | 11 => "Nov" | 12 => "Dec"
  | _ => ""

/-- Day of the week by Zeller's congruence (0 = Saturday). -/
def dayOfWeek (d : Date) : Nat :=
  let m := if d.month < 3 then d.month + 12 else d.month
  let y := if d.month < 3 then d.year - 1 else d.year
  (d.day + (13 * (m + 1)) / 5 + y % 100 + (y % 100) / 4 + (y / 100) / 4
    + 5 * (y / 100)) % 7

/-- English weekday names indexed by Zeller's value. -/
def weekdayName (h : Nat) : String :=
  match h with
  | 0 => "Saturday" | 1 => "Sunday" | 2 => "Monday" | 3 => "Tuesday"
  | 4 => "Wednesday" | 5 => "Thursday" | 6 => "Friday"
  | _ => ""

/-- `toLocaleDateString("en-US", {weekday: "long", month: "long", day:
"numeric", year: "numeric"})`. -/
def toLongDateString (d : Date) : String :=
  let w := weekdayName (dayOfWeek d)
  let m := monthLongName d.month
  let dd := toString d.day
  let yy := toString d.year
  s!"{w}, {m} {dd}, {yy}"

/-- `toLocaleDateString("en-US", {month: "short", day: "numeric", year:
"numeric"})`. -/
def toShortDateString (d : Date) : String :=
  let m := monthShortName d.month
  let dd := toString d.day
  let yy := toString d.year
  s!"{m} {dd}, {yy}"

/-! ## Local storage -/

/-- Browser `localStorage`, restricted to the registration lists this app
stores: a partial map from keys to decoded registration lists. -/
def RegistrationStore := String → Option (List RegisteredEvent)

/-- The storage key `` `registrations_${user.id}` ``. -/
def regKey (uid : String) : String := "registrations_" ++ uid

/-- The empty storage (no key present). -/
def emptyStore : RegistrationStore := fun _ => none

/-- JS `x || dflt` on strings: the empty string is falsy. -/
def jsStringOr (v : Option String) (dflt : String) : String :=
  match v with
  | some s => if s = "" then dflt else s
  | none => dflt

/-! ## JS object property access

`locations[category]` on an object literal is a full JS property access: an
own property shadows the prototype chain, but a key that is no own property
and names a member of `Object.prototype` yields that inherited member — a
function (or, for `__proto__`, an object), truthy and not a string — so
`|| default` does not fire on it. -/

/-- The value a JS property read can produce here: an own string property,
a member inherited from `Object.prototype` (truthy, not a string), or
`undefined`. -/
inductive JsValue where
  | str (s : String)
  | inherited (name : String)
  | undefinedVal
deriving DecidableEq, Repr

/-- The property names every object literal inherits from
`Object.prototype`. -/
def objectPrototypeMembers : List String :=
  ["constructor", "hasOwnProperty", "isPrototypeOf", "propertyIsEnumerable",
   "toLocaleString", "toString", "valueOf", "__proto__",
   "__defineGetter__", "__defineSetter__", "__lookupGetter__",
   "__lookupSetter__"]

/-- JS truthiness of a property-read result: the empty string and
`undefined` are falsy; a non-empty string and any inherited
`Object.prototype` member (a function or object) are truthy. -/
def jsTruthy : JsValue → Bool
  | .str s => s != ""
  | .inherited _ => true
  | .undefinedVal => false

/-- `obj[key]` on an object literal with own string properties `own`: the
own property if present, else the member inherited from `Object.prototype`
if `key` names one, else `undefined`. -/
def jsObjGet (own : List (String × String)) (key : String) : JsValue :=
  match own.lookup key with
  | some v => .str v
  | none =>
    if key ∈ objectPrototypeMembers then .inherited key else .undefinedVal

/-- JS `v || dflt` on a property-read result. -/
def jsOrString (v : JsValue) (dflt : String) : JsValue :=
  if jsTruthy v then v else .str dflt

/-! ## JS `String.prototype.includes` -/

/-- Whether the first character list occurs at the head of the second. -/
def matchHere : List Char → List Char → Bool
  | [], _ => true
  | _ :: _, [] => false
  | p :: ps, c :: cs => p == c && matchHere ps cs

/-- Whether the first character list occurs anywhere in the second. -/
def findSub (pat : List Char) : List Char → Bool
  | [] => matchHere pat []
  | c :: cs => matchHere pat (c :: cs) || findSub pat cs

/-- JS `s.includes(sub)`. -/
def jsIncludes (s sub : String) : Bool := findSub sub.data s.data

/-- JS `s.toLowerCase()`, restricted to the ASCII case mapping
(`Char.toLower` lower-cases `A`–`Z` only, on which the full Unicode simple
case mapping of `toLowerCase` agrees).  The search-filter statement applies
the same mapping to both the haystack and the needle, so no theorem here
depends on the case mapping itself. -/
def jsToLowerCase (s : String) : String := ⟨s.data.map Char.toLower⟩

/-! ## Event detail view (`EventDetailContent`) -/

namespace EventDetailPage

/-- `getRegisteredEvents`: read the signed-in user's stored list; `[]` when
signed out or when the key is absent. -/
def getRegisteredEvents (user : Option User) (store : RegistrationStore) :
    List RegisteredEvent :=
  match user with
  | none => []
  | some u =>
    match store (regKey u.id) with
    | some l => l
    | none => []

/-- `saveRegisteredEvents`: write the list under the signed-in user's key;
a no-op when signed out. -/
def saveRegisteredEvents (user : Option User) (events : List RegisteredEvent)
    (store : RegistrationStore) : RegistrationStore :=
  match user with
  | none => store
  | some u => fun k => if k = regKey u.id then some events else store k

/-- `checkRegistrationStatus`: the membership check
`registeredEvents.some(regEvent => regEvent.id === Number.parseInt(eventId))`
that the `isRegistered` state is set from. -/
def checkRegistrationStatus (user : Option User) (eventId : Nat)
    (store : RegistrationStore) : Bool :=
  (getRegisteredEvents user store).any fun regEvent => regEvent.id == eventId

/-- The civil date computed inside `formatDate`: today advanced by
`(eventId % 30) + 1` days. -/
def eventDay (eventId : Nat) (today : Date) : Date :=
  today.addDays (eventId % 30 + 1)

/-- `formatDate` of the detail view: long en-US rendering of `eventDay`. -/
def formatDate (eventId : Nat) (today : Date) : String :=
  toLongDateString (eventDay eventId today)

/-- `minutes.toString().padStart(2, "0")`. -/
def padStart2 (s : String) : String :=
  if s.length < 2 then "0" ++ s else s

/-- `formatTime` of the detail view. -/
def formatTime (eventId : Nat) : String :=
  let hours := 9 + eventId % 8
  let minutes := eventId % 4 * 15
  let h := toString hours
  let mm := padStart2 (toString minutes)
  let ampm := if hours ≥ 12 then "PM" else "AM"
  s!"{h}:{mm} {ampm}"

/-- The `locations` object literal of the detail view, as an association
list in source order. -/
def locations : List (String × String) :=
  [("smartphones", "Tech Center, Silicon Valley"),
   ("laptops", "Innovation Hub, Downtown"),
   ("fragrances", "Wellness Center, Midtown"),
   ("skincare", "Beauty Lounge, Fashion District"),
   ("groceries", "Community Hall, Central Park"),
   ("home-decoration", "Design Studio, Arts Quarter"),
   ("furniture", "Exhibition Center, Convention Ave"),
   ("tops", "Fashion District, Style Street"),
   ("womens-dresses", "Style Arena, Fashion Plaza"),
   ("womens-shoes", "Fashion Plaza, Boutique Row"),
   ("mens-shirts", "Men's Pavilion, Commerce St"),
   ("mens-shoes", "Sports Complex, Athletic Ave"),
   ("mens-watches", "Luxury Lounge, Premium Plaza"),
   ("womens-watches", "Elegance Hall, Jewelry District"),
   ("womens-bags", "Accessories Center, Style Square"),
   ("womens-jewellery", "Jewelry Gallery, Diamond Row"),
   ("sunglasses", "Outdoor Plaza, Sunshine Blvd"),
   ("automotive", "Auto Expo Center, Motor Mile"),
   ("motorcycle", "Motor Sports Arena, Speed Way"),
   ("lighting", "Design Center, Innovation Park")]

/-- `getLocation` of the detail view with full JS property-access
semantics: `locations[category] || "Event Center, Main Street"`, where the
bracket access consults the prototype chain, so a category naming an
`Object.prototype` member returns that truthy inherited member instead of
the default venue. -/
def getLocationJs (category : String) : JsValue :=
  jsOrString (jsObjGet locations category) "Event Center, Main Street"

/-- The venue string `getLocation` computes for a category that is not an
`Object.prototype` member name — the only categories the event API produces.
`detail_getLocationJs_agrees` proves this is the restriction of
`getLocationJs`; the registration record stores this string. -/
def getLocation (category : String) : String :=
  jsStringOr (locations.lookup category) "Event Center, Main Street"

/-- The `newRegistration` object literal built in `handleRegister`. -/
def newRegistration (e : EventDetail) (now : Int) (today : Date) :
    RegisteredEvent :=
  { id := e.id
    title := e.title
    price := e.price
    thumbnail := e.thumbnail
    category := e.category
    registeredAt := now
    eventDate := formatDate e.id today
    location := getLocation e.category }

/-- `handleRegister`: the register/unregister toggle.  `isRegistered` is the
component state set by `checkRegistrationStatus`; `now` is the clock value
behind `new Date().toISOString()` and `today` the current civil date read by
`formatDate`. -/
def handleRegister (user : Option User) (event : Option EventDetail)
    (isRegistered : Bool) (now : Int) (today : Date)
    (store : RegistrationStore) : RegistrationStore :=
  match user, event with
  | some _, some e =>
    let registeredEvents := getRegisteredEvents user store
    if isRegistered then
      saveRegisteredEvents user
        (registeredEvents.filter fun regEvent => regEvent.id != e.id) store
    else
      saveRegisteredEvents user
        (registeredEvents ++ [newRegistration e now today]) store
  | _, _ => store

end EventDetailPage

/-! ## Events list view (`EventsContent`) -/

namespace EventsPage

/-- The fetch-related component state of the list view. -/
structure EventsState where
  events : List Event
  loading : Bool
  error : Option String
deriving Repr

/-- Outcome of `fetch("https://dummyjson.com/products?limit=20")`: a parsed
`products` array, a non-ok response, or a thrown error. -/
inductive FetchResult where
  | success (products : List Event)
  | httpError
  | thrown

/-- `fetchEvents`: the net effect of one run of the async function on the
component state, given the fetch outcome. -/
def fetchEvents (s : EventsState) (r : FetchResult) : EventsState :=
  match r with
  | .success products => { events := products, loading := false, error := none }
  | .httpError =>
    { s with loading := false, error := some "Failed to load events. Please try again." }
  | .thrown =>
    { s with loading := false, error := some "Failed to load events. Please try again." }

/-- `filteredEvents`: the derived list rendered by the grid. -/
def filteredEvents (events : List Event) (searchTerm : String) : List Event :=
  events.filter fun event =>
    jsIncludes (jsToLowerCase event.title) (jsToLowerCase searchTerm) ||
    jsIncludes (jsToLowerCase event.category) (jsToLowerCase searchTerm)

/-- The error box of the list view: message text plus the retry button's
`onClick` handler, which is `fetchEvents` itself. -/
structure ErrorBox where
  message : String
  retry : EventsState → FetchResult → EventsState

/-- What the error-state fragment renders: present exactly when `error` is
non-null, showing the stored message with a retry button wired to
`fetchEvents`. -/
def renderErrorBox (s : EventsState) : Option ErrorBox :=
  match s.error with
  | some msg => some { message := msg, retry := fetchEvents }
  | none => none

/-- `formatDate` of the list view (short en-US format, same date rule). -/
def formatDate (eventId : Nat) (today : Date) : String :=
  toShortDateString (today.addDays (eventId % 30 + 1))

/-- The `locations` object literal of the list view. -/
def locations : List (String × String) :=
  [("smartphones", "Tech Center"),
   ("laptops", "Innovation Hub"),
   ("fragrances", "Wellness Center"),
   ("skincare", "Beauty Lounge"),
   ("groceries", "Community Hall"),
   ("home-decoration", "Design Studio"),
   ("furniture", "Exhibition Center"),
   ("tops", "Fashion District"),
   ("womens-dresses", "Style Arena"),
   ("womens-shoes", "Fashion Plaza"),
   ("mens-shirts", "Men's Pavilion"),
   ("mens-shoes", "Sports Complex"),
   ("mens-watches", "Luxury Lounge"),
   ("womens-watches", "Elegance Hall"),
   ("womens-bags", "Accessories Center"),
   ("womens-jewellery", "Jewelry Gallery"),
   ("sunglasses", "Outdoor Plaza"),
   ("automotive", "Auto Expo Center"),
   ("motorcycle", "Motor Sports Arena"),
   ("lighting", "Design Center")]

/-- `getLocation` of the list view with full JS property-access semantics:
`locations[category] || "Event Center"`, prototype chain included. -/
def getLocationJs (category : String) : JsValue :=
  jsOrString (jsObjGet locations category) "Event Center"

/-- The venue string the list view computes for a category that is not an
`Object.prototype` member name; `list_getLocationJs_agrees` proves this is
the restriction of `getLocationJs`. -/
def getLocation (category : String) : String :=
  jsStringOr (locations.lookup category) "Event Center"

end EventsPage

/-! ## Profile view (`ProfileContent`) -/

namespace ProfilePage

/-- `loadRegisteredEvents`: read the stored list and sort it by registration
date, newest first (`sort((a, b) => time(b.registeredAt) - time(a.registeredAt))`). -/
def loadRegisteredEvents (user : Option User) (store : RegistrationStore) :
    List RegisteredEvent :=
  match user with
  | none => []
  | some u =>
    let events : List RegisteredEvent :=
      match store (regKey u.id) with
      | some l => l
      | none => []
    events.mergeSort fun a b => b.registeredAt ≤ a.registeredAt

/-- `handleUnregister`: filter the event out of the component state list
(the sorted display list) and write that list back to storage. -/
def handleUnregister (user : Option User) (eventId : Nat)
    (registeredEvents : List RegisteredEvent) (store : RegistrationStore) :
    RegistrationStore :=
  match user with
  | none => store
  | some u =>
    let updatedEvents := registeredEvents.filter fun event => event.id != eventId
    fun k => if k = regKey u.id then some updatedEvents else store k

/-- The unregister flow as reachable from the profile page: the state list
the filter runs on is the one `loadRegisteredEvents` produced from storage. -/
def profileUnregister (user : Option User) (eventId : Nat)
    (store : RegistrationStore) : RegistrationStore :=
  handleUnregister user eventId (loadRegisteredEvents user store) store

end ProfilePage

/-! ## Concrete fixtures -/

/-- A signed-in user. -/
def sampleUser : User := { id := "u1", name := "Nadia", email := "n@example.com" }

/-- A second, distinct user. -/
def sampleUserB : User := { id := "u2", name := "Omar", email := "o@example.com" }

/-- A stored registration, registered earliest. -/
def regA : RegisteredEvent :=
  { id := 1, title := "A", price := 10, thumbnail := "a.png",
    category := "laptops", registeredAt := 1, eventDate := "d1", location := "l1" }

/-- A stored registration, registered second. -/
def regB : RegisteredEvent :=
  { id := 2, title := "B", price := 20, thumbnail := "b.png",
    category := "tops", registeredAt := 2, eventDate := "d2", location := "l2" }

/-- A stored registration, registered last. -/
def regC : RegisteredEvent :=
  { id := 3, title := "C", price := 30, thumbnail := "c.png",
    category := "tops", registeredAt := 3, eventDate := "d3", location := "l3" }

/-- Storage holding `sampleUser`'s list `[regA, regB, regC]` in registration
order (oldest first, as successive registrations append). -/
def sampleStore : RegistrationStore :=
  fun k => if k = regKey "u1" then some [regA, regB, regC] else none

/-- A loaded event detail. -/
def sampleEventA : EventDetail :=
  { id := 5, title := "Laptop Expo", description := "expo", price := 100,
    thumbnail := "t.png", images := ["i1.png"], category := "laptops",
    rating := 4, stock := 3, brand := "Acme", discountPercentage := 0,
    tags := ["tech"] }

/-- A different event detail sharing `sampleEventA`'s id and category. -/
def sampleEventB : EventDetail :=
  { id := 5, title := "Another Title", description := "other", price := 999,
    thumbnail := "u.png", images := [], category := "laptops",
    rating := 1, stock := 7, brand := "Globex", discountPercentage := 10,
    tags := [] }

/-- An event detail whose id is already registered in `sampleStore`. -/
def sampleEventOne : EventDetail :=
  { id := 1, title := "A", description := "a", price := 10,
    thumbnail := "a.png", images := [], category := "laptops",
    rating := 4, stock := 3, brand := "Acme", discountPercentage := 0,
    tags := [] }

/-- A fetched list-view event. -/
def sampleEvent : Event :=
  { id := 7, title := "Great Phone", description := "d", price := 50,
    thumbnail := "p.png", category := "smartphones", rating := 4, stock := 9,
    brand := "Acme" }

/-- The uniqueness invariant of the spec: each event identifier occurs at
most once in a stored registration list. -/
def atMostOnce (l : List RegisteredEvent) : Prop :=
  ∀ E : Nat, (l.countP fun r => r.id == E) ≤ 1

/-! ## Helper lemmas -/

theorem regKey_inj {a b : String} (h : regKey a = regKey b) : a = b := by
  have hd := congrArg String.data h
  simp only [regKey, String.data_append] at hd
  exact String.ext (List.append_cancel_left hd)

theorem get_save (u : User) (l : List RegisteredEvent) (store : RegistrationStore) :
    EventDetailPage.getRegisteredEvents (some u)
      (EventDetailPage.saveRegisteredEvents (some u) l store) = l := by
  simp [EventDetailPage.getRegisteredEvents, EventDetailPage.saveRegisteredEvents]

theorem save_apply_ne (u : User) (l : List RegisteredEvent)
    (store : RegistrationStore) (k : String) (h : k ≠ regKey u.id) :
    EventDetailPage.saveRegisteredEvents (some u) l store k = store k := by
  simp [EventDetailPage.saveRegisteredEvents, h]

theorem load_eq_sort (u : User) (store : RegistrationStore) :
    ProfilePage.loadRegisteredEvents (some u) store
      = (EventDetailPage.getRegisteredEvents (some u) store).mergeSort
          (fun a b => b.registeredAt ≤ a.registeredAt) := rfl

theorem get_profileUnregister (u : User) (E : Nat) (store : RegistrationStore) :
    EventDetailPage.getRegisteredEvents (some u)
        (ProfilePage.profileUnregister (some u) E store)
      = (ProfilePage.loadRegisteredEvents (some u) store).filter
          (fun r => r.id != E) := by
  simp [ProfilePage.profileUnregister, ProfilePage.handleUnregister,
    EventDetailPage.getRegisteredEvents]

theorem countP_filter_le (p q : RegisteredEvent → Bool) (l : List RegisteredEvent) :
    ((l.filter q).countP p) ≤ l.countP p := by
  rw [List.countP_filter]
  exact List.countP_mono_left fun a _ h => by
    have := And.left (Bool.and_eq_true _ _ |>.mp h)
    exact this

theorem Date.lt_trans' {a b c : Date} (h1 : a.lt b) (h2 : b.lt c) : a.lt c := by
  unfold Date.lt at *
  omega

theorem Date.lt_nextDay (d : Date) : d.lt d.nextDay := by
  unfold Date.nextDay
  split
  · simp only [Date.lt, true_and, and_true]
    omega
  · split
    · simp only [Date.lt, true_and, and_true]
      omega
    · simp only [Date.lt, true_and, and_true]
      omega

theorem Date.lt_addDays (d : Date) (k : Nat) : d.lt (d.addDays (k + 1)) := by
  induction k generalizing d with
  | zero => exact d.lt_nextDay
  | succ n ih => exact Date.lt_trans' d.lt_nextDay (ih d.nextDay)

theorem matchHere_iff (p : List Char) : ∀ l, matchHere p l = true ↔ p <+: l := by
  induction p with
  | nil => intro l; simp [matchHere]
  | cons a as ih =>
    intro l
    cases l with
    | nil => simp [matchHere]
    | cons b bs => simp [matchHere, List.cons_prefix_cons, ih bs]

theorem findSub_iff (p : List Char) : ∀ l, findSub p l = true ↔ p <:+: l := by
  intro l
  induction l with
  | nil => simp [findSub, matchHere_iff, List.infix_nil, List.prefix_nil]
  | cons c cs ih => simp [findSub, matchHere_iff, ih, List.infix_cons_iff]

theorem findSub_of_empty (l : List Char) : findSub [] l = true := by
  cases l <;> simp [findSub, matchHere]

theorem jsIncludes_empty_term (s : String) : jsIncludes s "" = true :=
  findSub_of_empty s.data

theorem lookup_eq_none_of_not_mem {l : List (String × String)} {c : String}
    (h : c ∉ l.map Prod.fst) : l.lookup c = none := by
  induction l with
  | nil => rfl
  | cons p ps ih =>
    obtain ⟨k, v⟩ := p
    simp only [List.map_cons, List.mem_cons, not_or] at h
    obtain ⟨h1, h2⟩ := h
    have hbeq : (c == k) = false := beq_eq_false_iff_ne.mpr h1
    simp [List.lookup, hbeq, ih h2]

theorem load_sorted_desc (u : User) (store : RegistrationStore) :
    (ProfilePage.loadRegisteredEvents (some u) store).Pairwise
      (fun a b => b.registeredAt ≤ a.registeredAt) := by
  rw [load_eq_sort]
  have hs := @List.sorted_mergeSort RegisteredEvent
    (fun a b => decide (b.registeredAt ≤ a.registeredAt))
    (fun a b c h1 h2 => by
      simp only [decide_eq_true_eq] at *
      omega)
    (fun a b => by
      simp only [Bool.or_eq_true, decide_eq_true_eq]
      omega)
    (EventDetailPage.getRegisteredEvents (some u) store)
  exact hs.imp fun h => by simpa using h

theorem lookup_locations_ne_proto {c : String}
    (h : c ∈ objectPrototypeMembers) :
    EventDetailPage.locations.lookup c = none
      ∧ EventsPage.locations.lookup c = none := by
  fin_cases h <;> exact ⟨rfl, rfl⟩

theorem detail_getLocationJs_agrees (c : String)
    (h : c ∉ objectPrototypeMembers) :
    EventDetailPage.getLocationJs c = .str (EventDetailPage.getLocation c) := by
  rw [EventDetailPage.getLocationJs, EventDetailPage.getLocation, jsObjGet]
  cases hl : EventDetailPage.locations.lookup c with
  | none => simp [jsOrString, jsTruthy, jsStringOr, h]
  | some v =>
    by_cases hv : v = "" <;> simp [jsOrString, jsTruthy, jsStringOr, hv]

theorem list_getLocationJs_agrees (c : String)
    (h : c ∉ objectPrototypeMembers) :
    EventsPage.getLocationJs c = .str (EventsPage.getLocation c) := by
  rw [EventsPage.getLocationJs, EventsPage.getLocation, jsObjGet]
  cases hl : EventsPage.locations.lookup c with
  | none => simp [jsOrString, jsTruthy, jsStringOr, h]
  | some v =>
    by_cases hv : v = "" <;> simp [jsOrString, jsTruthy, jsStringOr, hv]

/-! ## Claims -/

/-- C1: the stored registration list of a user holds at most one
registration per event identifier, and this invariant is preserved by the
detail view's register/unregister toggle (whose branch is selected by the
`checkRegistrationStatus` membership check, and which appends only when that
check found no entry with the event's identifier) and by the profile view's
unregister. -/
theorem C1_registration_uniqueness (u : User) (e : EventDetail) (now : Int)
    (today : Date) (store : RegistrationStore)
    (h : atMostOnce (EventDetailPage.getRegisteredEvents (some u) store)) :
    atMostOnce (EventDetailPage.getRegisteredEvents (some u)
        (EventDetailPage.handleRegister (some u) (some e)
          (EventDetailPage.checkRegistrationStatus (some u) e.id store)
          now today store))
      ∧ atMostOnce (EventDetailPage.getRegisteredEvents (some u)
          (ProfilePage.profileUnregister (some u) e.id store)) := by
  constructor
  · cases hc : EventDetailPage.checkRegistrationStatus (some u) e.id store with
    | true =>
      simp only [EventDetailPage.handleRegister]
      rw [if_pos trivial, get_save]
      intro E
      exact le_trans (countP_filter_le _ _ _) (h E)
    | false =>
      simp only [EventDetailPage.handleRegister]
      rw [if_neg Bool.false_ne_true, get_save]
      intro E
      rw [List.countP_append]
      by_cases hE : e.id = E
      · have hzero :
            ((EventDetailPage.getRegisteredEvents (some u) store).countP
              fun r => r.id == E) = 0 := by
          have hall : ∀ r ∈ EventDetailPage.getRegisteredEvents (some u) store,
              ¬r.id = e.id := by
            simpa [EventDetailPage.checkRegistrationStatus] using hc
          rw [List.countP_eq_zero]
          intro r hr
          simpa [hE] using hall r hr
        rw [hzero]
        simp [EventDetailPage.newRegistration, List.countP_cons, hE]
      · have hone :
            (List.countP (fun r => r.id == E)
              [EventDetailPage.newRegistration e now today]) = 0 := by
          simp [EventDetailPage.newRegistration, List.countP_cons, hE]
        rw [hone]
        simpa using h E
  · rw [get_profileUnregister, load_eq_sort]
    intro E
    refine le_trans (countP_filter_le _ _ _) ?_
    rw [(List.mergeSort_perm _ _).countP_eq]
    exact h E

/-- C1 witness: the invariant theorem applied to the empty store. -/
theorem C1_registration_uniqueness_witness :
    atMostOnce (EventDetailPage.getRegisteredEvents (some sampleUser)
        (EventDetailPage.handleRegister (some sampleUser) (some sampleEventA)
          (EventDetailPage.checkRegistrationStatus (some sampleUser)
            sampleEventA.id emptyStore)
          0 ⟨2026, 10, 12⟩ emptyStore))
      ∧ atMostOnce (EventDetailPage.getRegisteredEvents (some sampleUser)
          (ProfilePage.profileUnregister (some sampleUser) sampleEventA.id
            emptyStore)) :=
  C1_registration_uniqueness sampleUser sampleEventA 0 ⟨2026, 10, 12⟩
    emptyStore (by intro E; simp [EventDetailPage.getRegisteredEvents, emptyStore])

/-- C2 counterexample: the pseudo event date is not determined by the
identifier and category alone — evaluating `formatDate` for the same event
id on two different current dates yields two different strings. -/
theorem C2_counterexample :
    EventDetailPage.formatDate 1 ⟨2026, 1, 10⟩
      ≠ EventDetailPage.formatDate 1 ⟨2026, 1, 12⟩ := by decide

/-- C2 (amended): the pseudo time and pseudo venue are determined solely by
the event's identifier and category, and the pseudo event date is determined
by the identifier together with the current date at evaluation: two events
with the same identifier and category evaluated on the same current date get
identical date, time and venue strings. -/
theorem C2_derived_fields_deterministic (e₁ e₂ : EventDetail) (today : Date)
    (hid : e₁.id = e₂.id) (hcat : e₁.category = e₂.category) :
    EventDetailPage.formatDate e₁.id today
        = EventDetailPage.formatDate e₂.id today
      ∧ EventDetailPage.formatTime e₁.id = EventDetailPage.formatTime e₂.id
      ∧ EventDetailPage.getLocation e₁.category
        = EventDetailPage.getLocation e₂.category := by
  rw [hid, hcat]
  exact ⟨rfl, rfl, rfl⟩

/-- C2 witness: two concrete events differing in every field except
identifier and category get the same derived presentational fields. -/
theorem C2_derived_fields_deterministic_witness :
    sampleEventA.id = sampleEventB.id
      ∧ sampleEventA.category = sampleEventB.category
      ∧ (EventDetailPage.formatDate sampleEventA.id ⟨2026, 10, 12⟩
            = EventDetailPage.formatDate sampleEventB.id ⟨2026, 10, 12⟩
          ∧ EventDetailPage.formatTime sampleEventA.id
            = EventDetailPage.formatTime sampleEventB.id
          ∧ EventDetailPage.getLocation sampleEventA.category
            = EventDetailPage.getLocation sampleEventB.category) :=
  ⟨rfl, rfl,
    C2_derived_fields_deterministic sampleEventA sampleEventB ⟨2026, 10, 12⟩
      rfl rfl⟩

/-- C3: registering while signed in for a loaded event that the membership
check does not find in the stored list appends exactly one registration,
whose `id`, `title`, `price`, `thumbnail` and `category` copy the event,
whose `registeredAt` is the registration timestamp, whose `eventDate` is
`formatDate event.id` and whose `location` is `getLocation event.category`;
all previously stored registrations are preserved unchanged, in order. -/
theorem C3_register_appends (u : User) (e : EventDetail) (now : Int)
    (today : Date) (store : RegistrationStore)
    (h : EventDetailPage.checkRegistrationStatus (some u) e.id store = false) :
    EventDetailPage.getRegisteredEvents (some u)
        (EventDetailPage.handleRegister (some u) (some e)
          (EventDetailPage.checkRegistrationStatus (some u) e.id store)
          now today store)
      = EventDetailPage.getRegisteredEvents (some u) store ++
          [{ id := e.id, title := e.title, price := e.price,
             thumbnail := e.thumbnail, category := e.category,
             registeredAt := now,
             eventDate := EventDetailPage.formatDate e.id today,
             location := EventDetailPage.getLocation e.category }] := by
  rw [h]
  simp only [EventDetailPage.handleRegister]
  rw [if_neg Bool.false_ne_true, get_save]
  rfl

/-- C3 witness: registering from the empty store. -/
theorem C3_register_appends_witness :
    EventDetailPage.checkRegistrationStatus (some sampleUser) sampleEventA.id
        emptyStore = false
      ∧ EventDetailPage.getRegisteredEvents (some sampleUser)
          (EventDetailPage.handleRegister (some sampleUser) (some sampleEventA)
            (EventDetailPage.checkRegistrationStatus (some sampleUser)
              sampleEventA.id emptyStore)
            0 ⟨2026, 10, 12⟩ emptyStore)
        = EventDetailPage.getRegisteredEvents (some sampleUser) emptyStore ++
            [{ id := sampleEventA.id, title := sampleEventA.title,
               price := sampleEventA.price, thumbnail := sampleEventA.thumbnail,
               category := sampleEventA.category, registeredAt := 0,
               eventDate := EventDetailPage.formatDate sampleEventA.id
                 ⟨2026, 10, 12⟩,
               location := EventDetailPage.getLocation sampleEventA.category }] :=
  ⟨by decide,
    C3_register_appends sampleUser sampleEventA 0 ⟨2026, 10, 12⟩ emptyStore
      (by decide)⟩

/-- C4 counterexample: unregistering through the profile view does not leave
the surviving entries in their original stored order.  `sampleStore` holds
`[regA, regB, regC]` (oldest registration first, the order `handleRegister`
produces); the profile view filters its newest-first display list and writes
that back, so after unregistering event 1 the store holds `[regC, regB]`,
not the claimed `[regB, regC]`. -/
theorem C4_counterexample :
    EventDetailPage.getRegisteredEvents (some sampleUser)
        (ProfilePage.profileUnregister (some sampleUser) 1 sampleStore)
      ≠ (EventDetailPage.getRegisteredEvents (some sampleUser)
          sampleStore).filter (fun r => r.id != 1) := by
  intro hcontra
  have hsorted : (EventDetailPage.getRegisteredEvents (some sampleUser)
      (ProfilePage.profileUnregister (some sampleUser) 1 sampleStore)).Pairwise
        (fun a b => b.registeredAt ≤ a.registeredAt) := by
    rw [get_profileUnregister]
    exact (load_sorted_desc sampleUser sampleStore).filter _
  rw [hcontra] at hsorted
  have hrhs : (EventDetailPage.getRegisteredEvents (some sampleUser)
      sampleStore).filter (fun r => r.id != 1) = [regB, regC] := by decide
  rw [hrhs] at hsorted
  have hle := (List.pairwise_cons.mp hsorted).1 regC (by simp)
  simp [regB, regC] at hle

/-- C4 (amended): unregistering from event `E` removes exactly the entries
with id `E`.  Via the detail-view toggle (taken when the membership check
reports the event registered) the stored list becomes the previous stored
list with id-`E` entries removed, in original order.  Via the profile view
the stored list becomes the displayed (newest-first sorted) list with id-`E`
entries removed — a permutation of the previous stored list minus the id-`E`
entries, so every other entry survives exactly, but in the sorted order
rather than its original stored position. -/
theorem C4_unregister_removes (u : User) (e : EventDetail) (E : Nat)
    (now : Int) (today : Date) (store : RegistrationStore)
    (h : EventDetailPage.checkRegistrationStatus (some u) e.id store = true) :
    EventDetailPage.getRegisteredEvents (some u)
        (EventDetailPage.handleRegister (some u) (some e)
          (EventDetailPage.checkRegistrationStatus (some u) e.id store)
          now today store)
      = (EventDetailPage.getRegisteredEvents (some u) store).filter
          (fun r => r.id != e.id)
    ∧ EventDetailPage.getRegisteredEvents (some u)
        (ProfilePage.profileUnregister (some u) E store)
      = (ProfilePage.loadRegisteredEvents (some u) store).filter
          (fun r => r.id != E)
    ∧ (EventDetailPage.getRegisteredEvents (some u)
        (ProfilePage.profileUnregister (some u) E store)).Perm
        ((EventDetailPage.getRegisteredEvents (some u) store).filter
          (fun r => r.id != E))
    ∧ (∀ r ∈ EventDetailPage.getRegisteredEvents (some u)
        (ProfilePage.profileUnregister (some u) E store), r.id ≠ E)
    ∧ (∀ r ∈ EventDetailPage.getRegisteredEvents (some u)
        (EventDetailPage.handleRegister (some u) (some e)
          (EventDetailPage.checkRegistrationStatus (some u) e.id store)
          now today store), r.id ≠ e.id) := by
  refine ⟨?_, get_profileUnregister u E store, ?_, ?_, ?_⟩
  · rw [h]
    simp only [EventDetailPage.handleRegister]
    rw [if_pos trivial, get_save]
  · rw [get_profileUnregister, load_eq_sort]
    exact (List.mergeSort_perm _ _).filter _
  · rw [get_profileUnregister]
    intro r hr
    have := (List.mem_filter.mp hr).2
    simpa using this
  · rw [h]
    simp only [EventDetailPage.handleRegister]
    rw [if_pos trivial, get_save]
    intro r hr
    have := (List.mem_filter.mp hr).2
    simpa using this

/-- C4 witness: the amended theorem applied to a store with three
registrations, the first of which is the one unregistered. -/
theorem C4_unregister_removes_witness :
    EventDetailPage.checkRegistrationStatus (some sampleUser)
        sampleEventOne.id sampleStore = true
      ∧ EventDetailPage.getRegisteredEvents (some sampleUser)
          (EventDetailPage.handleRegister (some sampleUser) (some sampleEventOne)
            (EventDetailPage.checkRegistrationStatus (some sampleUser)
              sampleEventOne.id sampleStore)
            0 ⟨2026, 10, 12⟩ sampleStore)
        = (EventDetailPage.getRegisteredEvents (some sampleUser)
            sampleStore).filter (fun r => r.id != sampleEventOne.id) :=
  ⟨by decide,
    (C4_unregister_removes sampleUser sampleEventOne 1 0 ⟨2026, 10, 12⟩
      sampleStore (by decide)).1⟩

/-- C5: the list view's filtered result holds exactly the fetched events
whose lowercased title or category contains the lowercased search term as a
substring, in the original fetch order (it is a sublist of the fetched
list), and the empty search term keeps every event. -/
theorem C5_search_filter (events : List Event) (searchTerm : String) :
    (∀ e : Event, e ∈ EventsPage.filteredEvents events searchTerm ↔
        e ∈ events ∧
          ((jsToLowerCase searchTerm).data <:+: (jsToLowerCase e.title).data ∨
            (jsToLowerCase searchTerm).data <:+: (jsToLowerCase e.category).data))
      ∧ (EventsPage.filteredEvents events searchTerm).Sublist events
      ∧ EventsPage.filteredEvents events "" = events := by
  refine ⟨?_, List.filter_sublist events, ?_⟩
  · intro e
    simp [EventsPage.filteredEvents, List.mem_filter, jsIncludes, findSub_iff]
  · rw [EventsPage.filteredEvents, List.filter_eq_self]
    intro a _
    have h1 : jsIncludes (jsToLowerCase a.title) (jsToLowerCase "") = true := by
      have he : jsToLowerCase "" = "" := rfl
      rw [he]
      exact jsIncludes_empty_term _
    simp [h1]

/-- C6: the profile view's load yields a permutation of the stored
registration list, sorted by the `registeredAt` timestamp in descending
order (newest first). -/
theorem C6_profile_sorted (u : User) (store : RegistrationStore) :
    (ProfilePage.loadRegisteredEvents (some u) store).Perm
        (EventDetailPage.getRegisteredEvents (some u) store)
      ∧ (ProfilePage.loadRegisteredEvents (some u) store).Pairwise
          (fun a b => b.registeredAt ≤ a.registeredAt) := by
  refine ⟨?_, load_sorted_desc u store⟩
  rw [load_eq_sort]
  exact List.mergeSort_perm _ _

/-- C7: registration reads depend only on, and writes touch only, the
storage key `"registrations_" ++ user.id`; consequently a register or
unregister performed by one signed-in user leaves every other key — in
particular any distinct user's stored registration list — unchanged. -/
theorem C7_per_user_isolation (u v : User) (e : EventDetail) (eid : Nat)
    (isRegistered : Bool) (now : Int) (today : Date)
    (store store' : RegistrationStore) (k : String)
    (hk : k ≠ regKey u.id)
    (hread : store (regKey u.id) = store' (regKey u.id))
    (huv : u.id ≠ v.id) :
    EventDetailPage.getRegisteredEvents (some u) store
        = EventDetailPage.getRegisteredEvents (some u) store'
      ∧ ProfilePage.loadRegisteredEvents (some u) store
        = ProfilePage.loadRegisteredEvents (some u) store'
      ∧ EventDetailPage.handleRegister (some u) (some e) isRegistered now today
          store k = store k
      ∧ ProfilePage.profileUnregister (some u) eid store k = store k
      ∧ EventDetailPage.getRegisteredEvents (some v)
          (EventDetailPage.handleRegister (some u) (some e) isRegistered now
            today store)
        = EventDetailPage.getRegisteredEvents (some v) store
      ∧ EventDetailPage.getRegisteredEvents (some v)
          (ProfilePage.profileUnregister (some u) eid store)
        = EventDetailPage.getRegisteredEvents (some v) store := by
  have hget : EventDetailPage.getRegisteredEvents (some u) store
      = EventDetailPage.getRegisteredEvents (some u) store' := by
    simp only [EventDetailPage.getRegisteredEvents, hread]
  have hreg : ∀ k', k' ≠ regKey u.id →
      EventDetailPage.handleRegister (some u) (some e) isRegistered now today
        store k' = store k' := by
    intro k' hk'
    simp only [EventDetailPage.handleRegister]
    cases isRegistered with
    | true => rw [if_pos rfl]; exact save_apply_ne u _ store k' hk'
    | false => rw [if_neg Bool.false_ne_true]; exact save_apply_ne u _ store k' hk'
  have hunreg : ∀ k', k' ≠ regKey u.id →
      ProfilePage.profileUnregister (some u) eid store k' = store k' := by
    intro k' hk'
    simp only [ProfilePage.profileUnregister, ProfilePage.handleUnregister]
    simp [hk']
  have hkey : regKey v.id ≠ regKey u.id := fun hc => huv (regKey_inj hc).symm
  refine ⟨hget, ?_, hreg k hk, hunreg k hk, ?_, ?_⟩
  · simp only [ProfilePage.loadRegisteredEvents, hread]
  · simp only [EventDetailPage.getRegisteredEvents, hreg (regKey v.id) hkey]
  · simp only [EventDetailPage.getRegisteredEvents, hunreg (regKey v.id) hkey]

/-- C7 witness: a register and an unregister by user `u1` leave user `u2`'s
stored list and an unrelated key unchanged. -/
theorem C7_per_user_isolation_witness :
    "x" ≠ regKey sampleUser.id
      ∧ sampleStore (regKey sampleUser.id) = sampleStore (regKey sampleUser.id)
      ∧ sampleUser.id ≠ sampleUserB.id
      ∧ (EventDetailPage.getRegisteredEvents (some sampleUser) sampleStore
            = EventDetailPage.getRegisteredEvents (some sampleUser) sampleStore
          ∧ ProfilePage.loadRegisteredEvents (some sampleUser) sampleStore
            = ProfilePage.loadRegisteredEvents (some sampleUser) sampleStore
          ∧ EventDetailPage.handleRegister (some sampleUser) (some sampleEventA)
              false 0 ⟨2026, 10, 12⟩ sampleStore "x" = sampleStore "x"
          ∧ ProfilePage.profileUnregister (some sampleUser) 1 sampleStore "x"
            = sampleStore "x"
          ∧ EventDetailPage.getRegisteredEvents (some sampleUserB)
              (EventDetailPage.handleRegister (some sampleUser)
                (some sampleEventA) false 0 ⟨2026, 10, 12⟩ sampleStore)
            = EventDetailPage.getRegisteredEvents (some sampleUserB) sampleStore
          ∧ EventDetailPage.getRegisteredEvents (some sampleUserB)
              (ProfilePage.profileUnregister (some sampleUser) 1 sampleStore)
            = EventDetailPage.getRegisteredEvents (some sampleUserB)
                sampleStore) :=
  ⟨by decide, rfl, by decide,
    C7_per_user_isolation sampleUser sampleUserB sampleEventA 1 false 0
      ⟨2026, 10, 12⟩ sampleStore sampleStore "x" (by decide) rfl (by decide)⟩

/-- C8: when the fetch fails (non-ok response or thrown error) the event
list is left unchanged, the error message is set to "Failed to load events.
Please try again.", and the loading flag is cleared; the view then renders
that message with a retry button wired to the same `fetchEvents`; a
successful fetch clears the error and replaces the list with the response's
products. -/
theorem C8_fetch_error_handling (s : EventsPage.EventsState)
    (products : List Event) :
    (EventsPage.fetchEvents s .httpError).events = s.events
      ∧ (EventsPage.fetchEvents s .thrown).events = s.events
      ∧ (EventsPage.fetchEvents s .httpError).error
        = some "Failed to load events. Please try again."
      ∧ (EventsPage.fetchEvents s .thrown).error
        = some "Failed to load events. Please try again."
      ∧ (EventsPage.fetchEvents s .httpError).loading = false
      ∧ (EventsPage.fetchEvents s .thrown).loading = false
      ∧ EventsPage.renderErrorBox (EventsPage.fetchEvents s .httpError)
        = some { message := "Failed to load events. Please try again.",
                 retry := EventsPage.fetchEvents }
      ∧ EventsPage.renderErrorBox (EventsPage.fetchEvents s .thrown)
        = some { message := "Failed to load events. Please try again.",
                 retry := EventsPage.fetchEvents }
      ∧ EventsPage.fetchEvents s (.success products)
        = { events := products, loading := false, error := none }
      ∧ EventsPage.renderErrorBox (EventsPage.fetchEvents s (.success products))
        = none :=
  ⟨rfl, rfl, rfl, rfl, rfl, rfl, rfl, rfl, rfl, rfl⟩

/-- C9 counterexample: `"constructor"` is not among the 20 tabulated
categories, yet neither view's `locations[category] || default` returns the
default venue for it — the bracket access finds the truthy member inherited
from `Object.prototype` and returns it, a function rather than a venue
string. -/
theorem C9_counterexample :
    "constructor" ∉ EventDetailPage.locations.map Prod.fst
      ∧ EventDetailPage.getLocationJs "constructor"
          ≠ .str "Event Center, Main Street"
      ∧ EventDetailPage.getLocationJs "constructor"
          = .inherited "constructor"
      ∧ EventsPage.getLocationJs "constructor" ≠ .str "Event Center" := by
  decide

/-- C9 (amended): each view's `getLocation` maps its 20 tabulated categories
to the tabulated venue, and every other category string that does not name an
`Object.prototype` member (the empty string included) to the default venue —
"Event Center, Main Street" in the detail view, "Event Center" in the list
view; for the inherited member names (`constructor`, `toString`,
`__proto__`, …) the truthy inherited member itself is returned, not a venue
string. -/
theorem C9_getLocation_total :
    (∀ p ∈ EventDetailPage.locations,
        EventDetailPage.getLocationJs p.1 = .str p.2)
      ∧ (∀ p ∈ EventsPage.locations, EventsPage.getLocationJs p.1 = .str p.2)
      ∧ (∀ c : String, c ∉ EventDetailPage.locations.map Prod.fst →
          c ∉ objectPrototypeMembers →
          EventDetailPage.getLocationJs c = .str "Event Center, Main Street")
      ∧ (∀ c : String, c ∉ EventsPage.locations.map Prod.fst →
          c ∉ objectPrototypeMembers →
          EventsPage.getLocationJs c = .str "Event Center")
      ∧ (∀ c ∈ objectPrototypeMembers,
          EventDetailPage.getLocationJs c = .inherited c
            ∧ EventsPage.getLocationJs c = .inherited c)
      ∧ EventDetailPage.locations.length = 20
      ∧ EventsPage.locations.length = 20 := by
  refine ⟨by decide, by decide, ?_, ?_, ?_, rfl, rfl⟩
  · intro c h hp
    rw [EventDetailPage.getLocationJs, jsObjGet, lookup_eq_none_of_not_mem h]
    simp [jsOrString, jsTruthy, hp]
  · intro c h hp
    rw [EventsPage.getLocationJs, jsObjGet, lookup_eq_none_of_not_mem h]
    simp [jsOrString, jsTruthy, hp]
  · intro c hc
    have hl := lookup_locations_ne_proto hc
    constructor
    · rw [EventDetailPage.getLocationJs, jsObjGet, hl.1]
      simp [jsOrString, jsTruthy, hc]
    · rw [EventsPage.getLocationJs, jsObjGet, hl.2]
      simp [jsOrString, jsTruthy, hc]

/-- C9 witness: a tabulated category, a category absent from table and
prototype, the empty string, and an `Object.prototype` member name. -/
theorem C9_getLocation_total_witness :
    EventDetailPage.getLocationJs "smartphones"
        = .str "Tech Center, Silicon Valley"
      ∧ EventDetailPage.getLocationJs "podcasts"
        = .str "Event Center, Main Street"
      ∧ EventsPage.getLocationJs "" = .str "Event Center"
      ∧ EventDetailPage.getLocationJs "toString" = .inherited "toString" :=
  ⟨C9_getLocation_total.1 ("smartphones", "Tech Center, Silicon Valley")
      (by decide),
    C9_getLocation_total.2.2.1 "podcasts" (by decide) (by decide),
    C9_getLocation_total.2.2.2.1 "" (by decide) (by decide),
    (C9_getLocation_total.2.2.2.2.1 "toString" (by decide)).1⟩

/-- C10: the derived event date is the current date advanced by
`(eventId % 30) + 1` days, an offset between 1 and 30; for a valid current
date the derived date therefore lies strictly in the future — never today or
in the past — and both views format that same date. -/
theorem C10_future_event_date (n : Nat) (today : Date) (h : today.Valid) :
    EventDetailPage.eventDay n today = today.addDays (n % 30 + 1)
      ∧ (∃ k, 1 ≤ k ∧ k ≤ 30 ∧
          EventDetailPage.eventDay n today = today.addDays k)
      ∧ today.lt (EventDetailPage.eventDay n today)
      ∧ EventDetailPage.formatDate n today
        = toLongDateString (EventDetailPage.eventDay n today)
      ∧ EventsPage.formatDate n today
        = toShortDateString (EventDetailPage.eventDay n today) :=
  ⟨rfl,
    ⟨n % 30 + 1, Nat.le_add_left 1 (n % 30),
      by have := Nat.mod_lt n (by omega : 0 < 30); omega, rfl⟩,
    Date.lt_addDays today (n % 30),
    rfl, rfl⟩

/-- C10 witness: event id 5 seen on 2026-10-12. -/
theorem C10_future_event_date_witness :
    Date.Valid ⟨2026, 10, 12⟩
      ∧ (EventDetailPage.eventDay 5 ⟨2026, 10, 12⟩
            = Date.addDays ⟨2026, 10, 12⟩ (5 % 30 + 1)
          ∧ (∃ k, 1 ≤ k ∧ k ≤ 30 ∧
              EventDetailPage.eventDay 5 ⟨2026, 10, 12⟩
                = Date.addDays ⟨2026, 10, 12⟩ k)
          ∧ Date.lt ⟨2026, 10, 12⟩ (EventDetailPage.eventDay 5 ⟨2026, 10, 12⟩)
          ∧ EventDetailPage.formatDate 5 ⟨2026, 10, 12⟩
            = toLongDateString (EventDetailPage.eventDay 5 ⟨2026, 10, 12⟩)
          ∧ EventsPage.formatDate 5 ⟨2026, 10, 12⟩
            = toShortDateString (EventDetailPage.eventDay 5 ⟨2026, 10, 12⟩)) :=
  ⟨by decide, C10_future_event_date 5 ⟨2026, 10, 12⟩ (by decide)⟩

end EventExplorer
